import Mathlib

/-!
Verification of the `gpt_pdf_ocr` batch OCR-reconciliation scripts
(`ocr_gptepolish_ensemble.py` and `ocr_gptpolish.py`).

The two Python modules are shallowly embedded here:
* chat messages become the `Message` structure;
* the filesystem a document lives in becomes the inductive tree `Node`
  (a directory's entry list models `os.listdir` order, names unique);
* side effects (directory creation, file writes, prints, service calls)
  become an explicit `Event` trace;
* an uncaught Python exception becomes `Except.error` (the process then
  terminates with nonzero status); a normal `return` becomes `Except.ok`.
Byte-level encoding detection (`chardet`) is an external collaborator: a
`Node.file` carries its already-decoded text.
-/

/-- Chat roles used by both scripts. -/
inductive Role where
  | system
  | user
deriving DecidableEq

/-- One chat message, as the Python dict with keys role and content. -/
structure Message where
  role : Role
  content : String
deriving DecidableEq

def Message.isUser (m : Message) : Bool :=
  match m.role with
  | Role.user => true
  | Role.system => false

/-- Output text encodings that appear in the scripts. -/
inductive Encoding where
  | utf8
deriving DecidableEq

/-- Python exceptions the embedded code can raise, plus the service failure. -/
inductive PyErr where
  | fileNotFound
  | notADirectory
  | isADirectory
  | serviceError
deriving DecidableEq

/-- A filesystem node: a text file (content already decoded) or a directory
whose entry list models `os.listdir` order with unique names. -/
inductive Node where
  | file (content : String)
  | dir (entries : List (String × Node))

def Node.isDir : Node → Bool
  | Node.dir _ => true
  | Node.file _ => false

def Node.isFile : Node → Bool
  | Node.file _ => true
  | Node.dir _ => false

/-- Child lookup, as resolving one path component below a node
(`os.path.exists(os.path.join(p, name))` is false below a regular file). -/
def Node.lookup : Node → String → Option Node
  | Node.file _, _ => none
  | Node.dir entries, name => (entries.find? (fun p => p.1 == name)).map Prod.snd

/-- Observable side effects of a run, in program order. -/
inductive Event where
  | makedirs (path : String)
  | write (path : String) (enc : Encoding) (content : String)
  | printed (msg : String)
  | serviceCall (model : String) (messages : List Message) (maxTokens : Nat)
deriving DecidableEq

/-- The external generation endpoint: the payload is sent, text comes back or
the call fails (`ServiceError`). -/
def Service : Type := List Message → Except PyErr String

/-- The payloads a trace sent to the service. -/
def serviceCalls (t : List Event) : List (List Message) :=
  t.filterMap fun e =>
    match e with
    | Event.serviceCall _ msgs _ => some msgs
    | _ => none

/-- The file writes a trace performed. -/
def writes (t : List Event) : List Event :=
  t.filter fun e =>
    match e with
    | Event.write _ _ _ => true
    | _ => false

/-- `str.startswith`, over the character lists. -/
def strStartsWith (s p : String) : Bool :=
  p.data.isPrefixOf s.data

/-- `str.endswith`, over the character lists. -/
def strEndsWith (s p : String) : Bool :=
  p.data.reverse.isPrefixOf s.data.reverse

/-- `posixpath.join` for two components, as `os.path.join` behaves on the
POSIX paths these scripts use. -/
def osPathJoin (a b : String) : String :=
  if strStartsWith b "/" then b
  else if a = "" ∨ strEndsWith a "/" then a ++ b
  else a ++ "/" ++ b

/-- The decimal digit characters, as Python prints them. -/
def digitChar (d : Nat) : Char :=
  if d = 0 then '0' else if d = 1 then '1' else if d = 2 then '2' else if d = 3 then '3'
  else if d = 4 then '4' else if d = 5 then '5' else if d = 6 then '6' else if d = 7 then '7'
  else if d = 8 then '8' else '9'

/-- Decimal digits of `n`, most significant first; `fuel` bounds recursion
depth (`n + 1` is always enough). -/
def natDigits : Nat → Nat → List Char
  | 0, _ => []
  | fuel + 1, n =>
    if n < 10 then [digitChar n]
    else natDigits fuel (n / 10) ++ [digitChar (n % 10)]

/-- Python's decimal rendering of a nonnegative int, `str(n)` in an f-string. -/
def natRepr (n : Nat) : String :=
  String.mk (natDigits (n + 1) n)

namespace Ensemble

/-- The fixed system instruction of `ocr_gptepolish_ensemble.construct_messages`. -/
def system_prompt : String :=
  "Du har en mycket viktig uppgift!\n\n#### DIN UPPGIFT ####\nDin uppgift är att ordagrant återskapa texten från ett inscannat dokument. För att göra detta kommer du få tillgång till en eller flera OCR-transkriptioner av dokumentet.\n\n#### DETALJER #### \n\nAnalysera de tillgängliga OCR-transkriptionerna och konstruera baserat på dem den mest exakta ordagranna transkriptionen av originaldokumentet. Ta hänsyn till skillnader mellan transkriptionerna, såväl som löptextens innebörd och sammanhang.\n\n"

/-- Content of the user segment for candidate `ocr` with 1-based label `i`:
the f-string on line 98 of the ensemble script. -/
def userContent (i : Nat) (ocr : String) : String :=
  "#### OCR-transkription " ++ natRepr i ++ ": #### \n" ++ ocr ++ "\n\n"

/-- The loop `for i, ocr in enumerate(ocrs, start=1)` appending one user
message per candidate. -/
def userMessages : Nat → List String → List Message
  | _, [] => []
  | i, ocr :: rest => Message.mk Role.user (userContent i ocr) :: userMessages (i + 1) rest

/-- `construct_messages` of the ensemble script: the system instruction
followed by the labeled user segments. -/
def construct_messages (ocrs : List String) : List Message :=
  Message.mk Role.system system_prompt :: userMessages 1 ocrs

/-- `get_ocr`: reads one candidate file (decoding is delegated to `chardet`,
modeled by the file node already carrying decoded text); opening a directory
as a text file raises. -/
def get_ocr : Node → Except PyErr String
  | Node.file content => Except.ok content
  | Node.dir _ => Except.error PyErr.isADirectory

/-- The name filter of `get_ocrs` line 70: entries whose name ends in
`.txt` (a name test, not a file-kind test). -/
def txtEntries (entries : List (String × Node)) : List (String × Node) :=
  entries.filter fun p => strEndsWith p.1 ".txt"

/-- `get_ocrs`: list the `.txt`-named entries of the document directory and
read each one. -/
def get_ocrs : Node → Except PyErr (List String)
  | Node.file _ => Except.error PyErr.notADirectory
  | Node.dir entries => (txtEntries entries).mapM fun p => get_ocr p.2

/-- `save_response`: `os.makedirs(save_dir, exist_ok=True)` then write the
content UTF-8 encoded to `save_dir/<s_name>-ensemble.txt`. Returns the
events performed and the path written. -/
def save_response (content s_name save_dir : String) : List Event × String :=
  let file_path := osPathJoin save_dir (s_name ++ "-ensemble.txt")
  ([Event.makedirs save_dir, Event.write file_path Encoding.utf8 content], file_path)

/-- The fixed generation parameters of the ensemble `main`. -/
def MODEL : String := "gpt-4o"

def MAX_TOKENS : Nat := 1000

/-- `process_subdirectory`: load candidates, build the payload, call the
service, file the response. Any step's exception propagates. -/
def process_subdirectory (svc : Service) (save_dir s_name : String) (node : Node) :
    List Event × Except PyErr Unit :=
  match get_ocrs node with
  | Except.error e => ([], Except.error e)
  | Except.ok ocrs =>
    let messages := construct_messages ocrs
    match svc messages with
    | Except.error e => ([Event.serviceCall MODEL messages MAX_TOKENS], Except.error e)
    | Except.ok content =>
      let saved := save_response content s_name save_dir
      (Event.serviceCall MODEL messages MAX_TOKENS :: saved.1, Except.ok ())

/-- The subdirectory filter of `main` line 179: entries of the corpus root
that are directories. -/
def subdirectories (entries : List (String × Node)) : List (String × Node) :=
  entries.filter fun p => p.2.isDir

/-- The `for s_path in subdirectories` loop of `main`: print a progress line,
process the document, stop at the first uncaught exception. -/
def processDocs (svc : Service) (save_dir : String) :
    List (String × Node) → List Event × Except PyErr Unit
  | [] => ([], Except.ok ())
  | (name, node) :: rest =>
    let step := process_subdirectory svc save_dir name node
    match step.2 with
    | Except.error e =>
      (Event.printed ("Processing directory: " ++ name) :: step.1, Except.error e)
    | Except.ok _ =>
      let tail := processDocs svc save_dir rest
      (Event.printed ("Processing directory: " ++ name) :: step.1 ++ tail.1, tail.2)

/-- The ensemble `main` from the corpus-root listing on: `os.listdir` on a
missing root raises `FileNotFoundError` (the process then dies nonzero);
otherwise every subdirectory is processed in listing order and `DONE` is
printed at the end. The API-key read and client construction are external
collaborators and carry no events. -/
def main (svc : Service) (root : Option Node) (save_dir : String) :
    List Event × Except PyErr Unit :=
  match root with
  | none => ([], Except.error PyErr.fileNotFound)
  | some (Node.file _) => ([], Except.error PyErr.notADirectory)
  | some (Node.dir entries) =>
    let run := processDocs svc save_dir (subdirectories entries)
    match run.2 with
    | Except.error e => (run.1, Except.error e)
    | Except.ok _ => (run.1 ++ [Event.printed "DONE"], Except.ok ())

end Ensemble

namespace Polish

/-- The fixed system instruction of `ocr_gptpolish.construct_messages`. -/
def system_prompt : String :=
  "Du har en mycket viktig uppgift!\n\n#### DIN UPPGIFT ####\nEn mjukvara har producerat följande OCR av en pdf.\nDitt jobb är följande: Med hjälp av den presenterade OCRen ska du återskapa texten i dokumentet, så ordagrannt som möjligt.\n\n#### DETALJER #### \n\nDu är strikt förbjuden att ändra på innehållet i dokumentet och det är av yttersta vikt att det du returnerar ska vara så nära originalet du kan förmå. Om det finns tecken eller symboler du ej kan avläsa, ersätt dem med en asterix: \x27*\x27\n\n"

/-- `construct_messages` of the polish script: the system instruction, then
one user message whose f-string (line 84) embeds the OCR text twice. -/
def construct_messages (ocr : String) : List Message :=
  [Message.mk Role.system system_prompt,
   Message.mk Role.user ("#### OCR-transkription: #### \n" ++ ocr ++ "\n\n" ++ ocr)]

/-- `get_ocr` of the polish script, identical to the ensemble one: reads one
file (decoding delegated to `chardet`, the node carries decoded text). -/
def get_ocr : Node → Except PyErr String
  | Node.file content => Except.ok content
  | Node.dir _ => Except.error PyErr.isADirectory

/-- `str.replace(old, new)` on character lists: scan left to right, replace
each non-overlapping occurrence; `fuel` bounds recursion (source length is
always enough when `old` is nonempty, as it is at the call site). -/
def pyReplaceAux : Nat → List Char → List Char → List Char → List Char
  | 0, s, _, _ => s
  | _ + 1, [], _, _ => []
  | fuel + 1, c :: cs, old, new =>
    if old ≠ [] ∧ old.isPrefixOf (c :: cs) then
      new ++ pyReplaceAux fuel (List.drop old.length (c :: cs)) old new
    else
      c :: pyReplaceAux fuel cs old new

/-- `str.replace(old, new)` for a nonempty `old`. -/
def pyReplace (s old new : String) : String :=
  String.mk (pyReplaceAux s.data.length s.data old.data new.data)

/-- The fixed paths and parameters of the polish `main`. -/
def DIR_PATH : String := "/Users/filipberntsson/Documents/Work/P1/transcriptions"

def ABBYY_PATH : String := osPathJoin DIR_PATH "ABBYY_OCR"

def OUT_PATH : String := osPathJoin DIR_PATH "PROCESSED_OCR"

def MODEL : String := "gpt-4o-mini"

def MAX_TOKENS : Nat := 200

/-- The output path of one polished file (`main` line 154): the source
basename with `ABBYY` replaced by `PROCESSED`, under the output directory. -/
def savePath (out_path fname : String) : String :=
  osPathJoin out_path (pyReplace fname "ABBYY" "PROCESSED")

/-- The file filter of `main` line 144: entries of the input directory that
are regular files, any extension. -/
def fileEntries (entries : List (String × Node)) : List (String × Node) :=
  entries.filter fun p => p.2.isFile

/-- The `for file_path in file_paths` loop of `main`: per file, print a
progress line, read the OCR, build the payload, call the service, write the
polished text, print the save path; stop at the first uncaught exception. -/
def processFiles (svc : Service) (out_path : String) :
    List (String × Node) → List Event × Except PyErr Unit
  | [] => ([], Except.ok ())
  | (name, node) :: rest =>
    let pr := Event.printed ("Processing file: " ++ name)
    match get_ocr node with
    | Except.error e => ([pr], Except.error e)
    | Except.ok ocr =>
      let messages := construct_messages ocr
      match svc messages with
      | Except.error e => ([pr, Event.serviceCall MODEL messages MAX_TOKENS], Except.error e)
      | Except.ok content =>
        let sp := savePath out_path name
        let tail := processFiles svc out_path rest
        (pr :: Event.serviceCall MODEL messages MAX_TOKENS ::
           Event.write sp Encoding.utf8 content ::
           Event.printed ("Saved processed file to: " ++ sp) :: tail.1,
         tail.2)

/-- The polish `main` from the directory checks on. A missing corpus root or
missing `ABBYY_OCR` subdirectory prints an error and returns NORMALLY (the
process exits with status 0). Otherwise the output directory is created and
every regular file of `ABBYY_OCR` is processed; `DONE` is printed at the
end. `get_ocr` on a directory node models `open` on a directory raising. -/
def main (svc : Service) (root : Option Node) : List Event × Except PyErr Unit :=
  match root with
  | none =>
    ([Event.printed ("Error: The directory " ++ DIR_PATH ++ " does not exist.")], Except.ok ())
  | some rootNode =>
    match rootNode.lookup "ABBYY_OCR" with
    | none =>
      ([Event.printed ("Error: The directory " ++ ABBYY_PATH ++ " does not exist.")],
       Except.ok ())
    | some (Node.file _) =>
      ([Event.makedirs OUT_PATH], Except.error PyErr.notADirectory)
    | some (Node.dir entries) =>
      let run := processFiles svc OUT_PATH (fileEntries entries)
      match run.2 with
      | Except.error e => (Event.makedirs OUT_PATH :: run.1, Except.error e)
      | Except.ok _ =>
        (Event.makedirs OUT_PATH :: run.1 ++ [Event.printed "DONE"], Except.ok ())

end Polish

/-- A service stub that always answers with the fixed text `resp`. -/
def constSvc (resp : String) : Service := fun _ => Except.ok resp

/-- A service stub that always fails. -/
def failSvc : Service := fun _ => Except.error PyErr.serviceError

/-- Characters other than the newline ending a segment's label header. -/
def notNewline (c : Char) : Bool := c != '\n'

/-- The candidate text embedded in one ensemble user segment: everything
after the label header's newline, less the two appended newlines. -/
def extractCandidate (content : String) : String :=
  String.mk ((((content.data.dropWhile notNewline).drop 1).dropLast).dropLast)

/-- The candidate texts embedded in the ensemble payload built from `l`,
read back out of its user segments. -/
def payloadTexts (l : List String) : List String :=
  ((Ensemble.construct_messages l).filter Message.isUser).map fun m => extractCandidate m.content

/-- A one-document ensemble corpus, for concrete instantiations. -/
def docsW : List (String × Node) := [("dok1", Node.dir [("a.txt", Node.file "text ett")])]

/-- A further ensemble document appended after a failure, for concrete
instantiations. -/
def extraW : List (String × Node) := [("dok2", Node.dir [("b.txt", Node.file "text två")])]

/-- A one-file polish corpus, for concrete instantiations. -/
def filesW : List (String × Node) := [("ABBYY_f1.txt", Node.file "rad ett")]

/-- A further polish file appended after a failure, for concrete
instantiations. -/
def extraFW : List (String × Node) := [("ABBYY_f2.txt", Node.file "rad två")]

theorem userMessages_length (l : List String) : ∀ i, (Ensemble.userMessages i l).length = l.length := by
  induction l with
  | nil => intro i; rfl
  | cons x xs ih => intro i; simp [Ensemble.userMessages, ih]

theorem userMessages_get? (l : List String) :
    ∀ i k, (Ensemble.userMessages i l).get? k =
      (l.get? k).map fun ocr => Message.mk Role.user (Ensemble.userContent (i + k) ocr) := by
  induction l with
  | nil => intro i k; simp [Ensemble.userMessages]
  | cons x xs ih =>
    intro i k
    cases k with
    | zero => simp [Ensemble.userMessages]
    | succ k' =>
      simp only [Ensemble.userMessages, List.get?_cons_succ]
      rw [ih (i + 1) k']
      have h1 : i + 1 + k' = i + (k' + 1) := by omega
      rw [h1]

theorem dropWhile_append_all {p : Char → Bool} :
    ∀ (l₁ l₂ : List Char), (∀ c ∈ l₁, p c = true) →
      List.dropWhile p (l₁ ++ l₂) = List.dropWhile p l₂ := by
  intro l₁
  induction l₁ with
  | nil => intro l₂ _; rfl
  | cons c cs ih =>
    intro l₂ h
    simp only [List.cons_append, List.dropWhile_cons]
    rw [if_pos (h c (by simp))]
    exact ih l₂ fun x hx => h x (by simp [hx])

theorem digitChar_ne_newline (d : Nat) : digitChar d ≠ '\n' := by
  unfold digitChar
  split_ifs <;> decide

theorem natDigits_mem : ∀ (fuel n : Nat) (c : Char), c ∈ natDigits fuel n → ∃ d, c = digitChar d := by
  intro fuel
  induction fuel with
  | zero => intro n c hc; simp [natDigits] at hc
  | succ f ih =>
    intro n c hc
    simp only [natDigits] at hc
    by_cases h : n < 10
    · rw [if_pos h] at hc
      simp at hc
      exact ⟨n, hc⟩
    · rw [if_neg h] at hc
      rcases List.mem_append.mp hc with h1 | h2
      · exact ih _ _ h1
      · simp at h2
        exact ⟨n % 10, h2⟩

theorem natRepr_no_newline (n : Nat) : ∀ c ∈ (natRepr n).data, notNewline c = true := by
  intro c hc
  obtain ⟨d, rfl⟩ := natDigits_mem (n + 1) n c hc
  simpa [notNewline, bne_iff_ne] using digitChar_ne_newline d

theorem extract_userContent (i : Nat) (ocr : String) :
    extractCandidate (Ensemble.userContent i ocr) = ocr := by
  have hA : ∀ c ∈ ("#### OCR-transkription " : String).data, notNewline c = true := by decide
  have hB : ∀ c ∈ [':', ' ', '#', '#', '#', '#', ' '], notNewline c = true := by decide
  unfold extractCandidate Ensemble.userContent
  simp only [String.data_append, List.append_assoc]
  rw [dropWhile_append_all _ _ hA, dropWhile_append_all _ _ (natRepr_no_newline i)]
  rw [show (": #### \n" : String).data ++ (ocr.data ++ ("\n\n" : String).data) =
        [':', ' ', '#', '#', '#', '#', ' '] ++ ('\n' :: (ocr.data ++ ['\n', '\n'])) from rfl]
  rw [dropWhile_append_all _ _ hB]
  rw [List.dropWhile_cons, if_neg (by decide)]
  rw [show List.drop 1 ('\n' :: (ocr.data ++ ['\n', '\n'])) = ocr.data ++ ['\n', '\n'] from rfl]
  rw [show ocr.data ++ ['\n', '\n'] = (ocr.data ++ ['\n']) ++ ['\n'] from
        (List.append_assoc ocr.data ['\n'] ['\n']).symm]
  rw [List.dropLast_concat, List.dropLast_concat]

theorem userMessages_texts (l : List String) :
    ∀ i, ((Ensemble.userMessages i l).filter Message.isUser).map
      (fun m => extractCandidate m.content) = l := by
  induction l with
  | nil => intro i; rfl
  | cons x xs ih =>
    intro i
    have hu : Message.isUser (Message.mk Role.user (Ensemble.userContent i x)) = true := rfl
    simp only [Ensemble.userMessages, List.filter_cons, hu, if_true, List.map_cons]
    rw [extract_userContent, ih (i + 1)]

theorem payloadTexts_eq (l : List String) : payloadTexts l = l := by
  unfold payloadTexts Ensemble.construct_messages
  simp only [List.filter_cons]
  rw [if_neg (by decide)]
  exact userMessages_texts l 1

/-- Claim C1: for a candidate list, the ensemble payload builder returns
exactly `len(candidates) + 1` segments — the fixed system instruction
first, then one user segment per candidate in input order; the segment at
0-based position `i + 1` embeds `candidates[i]` verbatim and carries the
1-based label `i + 1`, so labels run contiguously from 1. -/
theorem ensemble_payload_shape (l : List String) (i : Nat) (ocr : String)
    (h : l.get? i = some ocr) :
    (Ensemble.construct_messages l).length = l.length + 1 ∧
    (Ensemble.construct_messages l).get? 0 =
      some (Message.mk Role.system Ensemble.system_prompt) ∧
    (Ensemble.construct_messages l).get? (i + 1) =
      some (Message.mk Role.user
        ("#### OCR-transkription " ++ natRepr (i + 1) ++ ": #### \n" ++ ocr ++ "\n\n")) ∧
    ∃ a b, (Ensemble.construct_messages l).get? (i + 1) =
      some (Message.mk Role.user (a ++ ocr ++ b)) := by
  have hseg : (Ensemble.construct_messages l).get? (i + 1) =
      some (Message.mk Role.user (Ensemble.userContent (i + 1) ocr)) := by
    simp only [Ensemble.construct_messages, List.get?_cons_succ]
    rw [userMessages_get? l 1 i, h]
    rw [show 1 + i = i + 1 from by omega]
    rfl
  refine ⟨?_, rfl, hseg, ?_⟩
  · simp [Ensemble.construct_messages, userMessages_length]
  · exact ⟨"#### OCR-transkription " ++ natRepr (i + 1) ++ ": #### \n", "\n\n", hseg⟩

/-- Concrete run of `ensemble_payload_shape` on two candidates at index 1. -/
theorem ensemble_payload_shape_witness :
    (["Hello wrold", "Hello world"] : List String).get? 1 = some "Hello world" ∧
    ((Ensemble.construct_messages ["Hello wrold", "Hello world"]).length =
        (["Hello wrold", "Hello world"] : List String).length + 1 ∧
      (Ensemble.construct_messages ["Hello wrold", "Hello world"]).get? 0 =
        some (Message.mk Role.system Ensemble.system_prompt) ∧
      (Ensemble.construct_messages ["Hello wrold", "Hello world"]).get? 2 =
        some (Message.mk Role.user
          ("#### OCR-transkription " ++ natRepr 2 ++ ": #### \nHello world\n\n")) ∧
      ∃ a b, (Ensemble.construct_messages ["Hello wrold", "Hello world"]).get? 2 =
        some (Message.mk Role.user (a ++ "Hello world" ++ b))) :=
  ⟨rfl, ensemble_payload_shape ["Hello wrold", "Hello world"] 1 "Hello world" rfl⟩

/-- Claim C3: the polish payload is exactly one fixed instruction segment
followed by exactly one labeled user entry, whose content is the label
header, a newline, the text, a blank line, and the text again — the input
is embedded twice, as in the source f-string. -/
theorem polish_payload_duplication (ocr : String) :
    Polish.construct_messages ocr =
      [Message.mk Role.system Polish.system_prompt,
       Message.mk Role.user ("#### OCR-transkription: #### \n" ++ ocr ++ "\n\n" ++ ocr)] ∧
    (Polish.construct_messages ocr).length = 2 ∧
    ∃ a b, (Polish.construct_messages ocr).get? 1 =
      some (Message.mk Role.user (a ++ ocr ++ b ++ ocr)) :=
  ⟨rfl, rfl, "#### OCR-transkription: #### \n", "\n\n", rfl⟩

/-- Claim C6: `save_response` first ensures the output root exists, then
writes the content UTF-8 encoded, and the artifact path is
`outputRoot/<documentId>-ensemble.txt`; concretely, document doc42 under
output root /out is written to /out/doc42-ensemble.txt. -/
theorem save_response_spec (root id content : String) :
    Ensemble.save_response content id root =
      ([Event.makedirs root,
        Event.write (osPathJoin root (id ++ "-ensemble.txt")) Encoding.utf8 content],
       osPathJoin root (id ++ "-ensemble.txt")) ∧
    (Ensemble.save_response content "doc42" "/out").2 = "/out/doc42-ensemble.txt" :=
  ⟨rfl, rfl⟩

/-- Claim C7: polish-mode output naming substitutes the token ABBYY in the
source filename by PROCESSED, under the output root; concretely
ABBYY_001.txt maps to /out/PROCESSED_001.txt, and the write event of a
processed file targets exactly that derived path. -/
theorem polish_save_name (outP fname resp c : String) :
    Polish.savePath outP fname =
      osPathJoin outP (Polish.pyReplace fname "ABBYY" "PROCESSED") ∧
    Polish.savePath "/out" "ABBYY_001.txt" = "/out/PROCESSED_001.txt" ∧
    writes (Polish.processFiles (constSvc resp) outP [(fname, Node.file c)]).1 =
      [Event.write (Polish.savePath outP fname) Encoding.utf8 resp] :=
  ⟨rfl, rfl, rfl⟩

/-- Claim C9: both payload builders are deterministic pure functions — two
runs on equal inputs produce identical payloads. In this embedding the
builders are event-free Lean functions, mirroring that the source builders
perform only string assembly, no I/O and no reads of external state. -/
theorem builders_deterministic (l₁ l₂ : List String) (t₁ t₂ : String)
    (hl : l₁ = l₂) (ht : t₁ = t₂) :
    Ensemble.construct_messages l₁ = Ensemble.construct_messages l₂ ∧
    Polish.construct_messages t₁ = Polish.construct_messages t₂ := by
  subst hl
  subst ht
  exact ⟨rfl, rfl⟩

/-- Concrete run of `builders_deterministic`. -/
theorem builders_deterministic_witness :
    Ensemble.construct_messages ["text ett"] = Ensemble.construct_messages ["text ett"] ∧
    Polish.construct_messages "rad ett" = Polish.construct_messages "rad ett" :=
  builders_deterministic ["text ett"] ["text ett"] "rad ett" "rad ett" rfl rfl

/-- Claim C10: ensemble-mode document enumeration keeps exactly the
directory-kind entries of the corpus root; candidate selection inside a
document keeps exactly the entries whose names end in .txt; polish-mode
enumeration keeps exactly the regular files of its input directory,
whatever their extension; and a node is a directory exactly when it is not
a regular file, so root-level regular files are never documents. -/
theorem enumeration_filters (entries : List (String × Node)) (p : String × Node) :
    (p ∈ Ensemble.subdirectories entries ↔ p ∈ entries ∧ p.2.isDir = true) ∧
    (p ∈ Ensemble.txtEntries entries ↔ p ∈ entries ∧ strEndsWith p.1 ".txt" = true) ∧
    (p ∈ Polish.fileEntries entries ↔ p ∈ entries ∧ p.2.isFile = true) ∧
    p.2.isDir = !p.2.isFile := by
  refine ⟨List.mem_filter, List.mem_filter, List.mem_filter, ?_⟩
  cases p.2 <;> rfl

/-- Claim C8: permuting the candidate list changes which positional label
each text receives but leaves the multiset of candidate texts embedded in
the payload's user segments unchanged (for both orders that multiset is
exactly the input list's). -/
theorem ensemble_payload_perm (l l' : List String) (h : l.Perm l') :
    (↑(payloadTexts l) : Multiset String) = ↑(payloadTexts l') ∧
    payloadTexts l = l ∧ payloadTexts l' = l' := by
  refine ⟨?_, payloadTexts_eq l, payloadTexts_eq l'⟩
  rw [payloadTexts_eq, payloadTexts_eq]
  exact Multiset.coe_eq_coe.mpr h

/-- Concrete run of `ensemble_payload_perm` on a transposition. -/
theorem ensemble_payload_perm_witness :
    (["Hello wrold", "Hello world"] : List String).Perm ["Hello world", "Hello wrold"] ∧
    ((↑(payloadTexts ["Hello wrold", "Hello world"]) : Multiset String) =
        ↑(payloadTexts ["Hello world", "Hello wrold"]) ∧
      payloadTexts ["Hello wrold", "Hello world"] = ["Hello wrold", "Hello world"] ∧
      payloadTexts ["Hello world", "Hello wrold"] = ["Hello world", "Hello wrold"]) :=
  ⟨List.Perm.swap "Hello world" "Hello wrold" [],
   ensemble_payload_perm _ _ (List.Perm.swap "Hello world" "Hello wrold" [])⟩

/-- Claim C2 counterexample: on a document subdirectory with zero `.txt`
files, `process_subdirectory` does NOT raise — the run succeeds, a service
call IS made (its payload is just the system segment), and an artifact IS
written, contradicting the claim that an `EmptyDocumentError` is raised
with no service call and no artifact. -/
theorem ensemble_empty_doc_cex :
    (Ensemble.process_subdirectory (constSvc "svar") "sav" "tom" (Node.dir [])).2 =
      Except.ok () ∧
    serviceCalls (Ensemble.process_subdirectory (constSvc "svar") "sav" "tom" (Node.dir [])).1 =
      [[Message.mk Role.system Ensemble.system_prompt]] ∧
    writes (Ensemble.process_subdirectory (constSvc "svar") "sav" "tom" (Node.dir [])).1 =
      [Event.write "sav/tom-ensemble.txt" Encoding.utf8 "svar"] :=
  ⟨rfl, rfl, rfl⟩

/-- Claim C2 amended: an ensemble document whose subdirectory has no
`.txt`-named entries yields zero candidates, no error: the service is
still called once with a payload of only the system segment, and an
artifact is still written for the document. -/
theorem ensemble_empty_doc (resp sd sName : String) (entries : List (String × Node))
    (h : ∀ p ∈ entries, strEndsWith p.1 ".txt" = false) :
    Ensemble.process_subdirectory (constSvc resp) sd sName (Node.dir entries) =
      ([Event.serviceCall Ensemble.MODEL [Message.mk Role.system Ensemble.system_prompt]
          Ensemble.MAX_TOKENS,
        Event.makedirs sd,
        Event.write (osPathJoin sd (sName ++ "-ensemble.txt")) Encoding.utf8 resp],
       Except.ok ()) := by
  have hfilter : Ensemble.txtEntries entries = [] := by
    unfold Ensemble.txtEntries
    rw [List.filter_eq_nil_iff]
    intro a ha
    simp [h a ha]
  have hg : Ensemble.get_ocrs (Node.dir entries) = Except.ok [] := by
    simp only [Ensemble.get_ocrs, hfilter]
    rfl
  simp [Ensemble.process_subdirectory, hg, constSvc, Ensemble.construct_messages,
        Ensemble.userMessages, Ensemble.save_response]

/-- Concrete run of `ensemble_empty_doc` on a directory holding only a
non-`.txt` entry. -/
theorem ensemble_empty_doc_witness :
    (∀ p ∈ [("readme.md", Node.file "hej")], strEndsWith p.1 ".txt" = false) ∧
    Ensemble.process_subdirectory (constSvc "svar2") "ut" "dok"
        (Node.dir [("readme.md", Node.file "hej")]) =
      ([Event.serviceCall Ensemble.MODEL [Message.mk Role.system Ensemble.system_prompt]
          Ensemble.MAX_TOKENS,
        Event.makedirs "ut",
        Event.write (osPathJoin "ut" ("dok" ++ "-ensemble.txt")) Encoding.utf8 "svar2"],
       Except.ok ()) :=
  ⟨by decide, ensemble_empty_doc "svar2" "ut" "dok" [("readme.md", Node.file "hej")] (by decide)⟩

/-- Claim C4 counterexample: in polish mode a missing corpus root does not
raise any error — `main` prints the message and returns normally, so the
process terminates with status 0, contradicting the claim that both modes
raise `FilesystemError` and exit nonzero. -/
theorem missing_root_polish_cex :
    Polish.main (constSvc "svar3") none =
      ([Event.printed ("Error: The directory " ++ Polish.DIR_PATH ++ " does not exist.")],
       Except.ok ()) :=
  rfl

/-- Claim C4 amended: with a missing corpus root no service call is ever
attempted in either mode; ensemble mode raises (`FileNotFoundError` from
`os.listdir`, so the process dies nonzero) before any service call, while
polish mode prints a descriptive message and returns normally with
status 0. -/
theorem missing_root_behavior (svc : Service) (sd : String) :
    Ensemble.main svc none sd = ([], Except.error PyErr.fileNotFound) ∧
    serviceCalls (Ensemble.main svc none sd).1 = [] ∧
    (Polish.main svc none).2 = Except.ok () ∧
    serviceCalls (Polish.main svc none).1 = [] ∧
    (Polish.main svc none).1 =
      [Event.printed ("Error: The directory " ++ Polish.DIR_PATH ++ " does not exist.")] :=
  ⟨rfl, rfl, rfl, rfl, rfl⟩

theorem processDocs_append_error (svc : Service) (sd : String) :
    ∀ (docs : List (String × Node)) (e : PyErr),
      (Ensemble.processDocs svc sd docs).2 = Except.error e →
      ∀ extra, Ensemble.processDocs svc sd (docs ++ extra) = Ensemble.processDocs svc sd docs := by
  intro docs
  induction docs with
  | nil =>
    intro e he extra
    exact absurd he (by simp [Ensemble.processDocs])
  | cons d rest ih =>
    obtain ⟨name, node⟩ := d
    intro e he extra
    cases hstep : (Ensemble.process_subdirectory svc sd name node).2 with
    | error eStep =>
      simp only [List.cons_append, Ensemble.processDocs, hstep]
    | ok u =>
      simp only [Ensemble.processDocs, hstep] at he
      simp only [List.cons_append, Ensemble.processDocs, hstep, List.append_eq]
      rw [ih e he extra]

theorem processFiles_append_error (svc : Service) (outP : String) :
    ∀ (files : List (String × Node)) (e : PyErr),
      (Polish.processFiles svc outP files).2 = Except.error e →
      ∀ extra, Polish.processFiles svc outP (files ++ extra) = Polish.processFiles svc outP files := by
  intro files
  induction files with
  | nil =>
    intro e he extra
    exact absurd he (by simp [Polish.processFiles])
  | cons d rest ih =>
    obtain ⟨name, node⟩ := d
    intro e he extra
    cases hg : Polish.get_ocr node with
    | error eStep =>
      simp only [List.cons_append, Polish.processFiles, hg]
    | ok ocr =>
      cases hs : svc (Polish.construct_messages ocr) with
      | error eStep =>
        simp only [List.cons_append, Polish.processFiles, hg, hs]
      | ok content =>
        simp only [Polish.processFiles, hg, hs] at he
        simp only [List.cons_append, Polish.processFiles, hg, hs, List.append_eq]
        rw [ih e he extra]

theorem ne_done_of_prefixed (pre name : String) (h : 4 < pre.length) :
    Event.printed "DONE" ≠ Event.printed (pre ++ name) := by
  intro he
  have hc : "DONE" = pre ++ name := by injection he
  have hlen := congrArg String.length hc
  rw [String.length_append] at hlen
  have h4 : ("DONE" : String).length = 4 := rfl
  rw [h4] at hlen
  omega

theorem process_subdirectory_no_printed (svc : Service) (sd name : String) (node : Node)
    (msg : String) : Event.printed msg ∉ (Ensemble.process_subdirectory svc sd name node).1 := by
  cases hg : Ensemble.get_ocrs node with
  | error e => simp [Ensemble.process_subdirectory, hg]
  | ok ocrs =>
    cases hs : svc (Ensemble.construct_messages ocrs) with
    | error e => simp [Ensemble.process_subdirectory, hg, hs]
    | ok content => simp [Ensemble.process_subdirectory, hg, hs, Ensemble.save_response]

theorem processDocs_no_done (svc : Service) (sd : String) :
    ∀ docs, Event.printed "DONE" ∉ (Ensemble.processDocs svc sd docs).1 := by
  intro docs
  induction docs with
  | nil => simp [Ensemble.processDocs]
  | cons d rest ih =>
    obtain ⟨name, node⟩ := d
    cases hstep : (Ensemble.process_subdirectory svc sd name node).2 with
    | error e =>
      intro hmem
      simp only [Ensemble.processDocs, hstep, List.mem_cons] at hmem
      rcases hmem with h1 | h2
      · exact ne_done_of_prefixed "Processing directory: " name (by decide) h1
      · exact process_subdirectory_no_printed svc sd name node "DONE" h2
    | ok u =>
      intro hmem
      simp only [Ensemble.processDocs, hstep, List.append_eq, List.mem_cons,
        List.mem_append] at hmem
      rcases hmem with (h1 | h2) | h3
      · exact ne_done_of_prefixed "Processing directory: " name (by decide) h1
      · exact process_subdirectory_no_printed svc sd name node "DONE" h2
      · exact ih h3

theorem processFiles_no_done (svc : Service) (outP : String) :
    ∀ files, Event.printed "DONE" ∉ (Polish.processFiles svc outP files).1 := by
  intro files
  induction files with
  | nil => simp [Polish.processFiles]
  | cons d rest ih =>
    obtain ⟨name, node⟩ := d
    cases hg : Polish.get_ocr node with
    | error e =>
      intro hmem
      simp only [Polish.processFiles, hg, List.mem_cons] at hmem
      rcases hmem with h1 | h2
      · exact ne_done_of_prefixed "Processing file: " name (by decide) h1
      · simp at h2
    | ok ocr =>
      cases hs : svc (Polish.construct_messages ocr) with
      | error e =>
        intro hmem
        simp only [Polish.processFiles, hg, hs, List.mem_cons] at hmem
        rcases hmem with h1 | h2
        · exact ne_done_of_prefixed "Processing file: " name (by decide) h1
        · simp at h2
      | ok content =>
        intro hmem
        simp only [Polish.processFiles, hg, hs, List.mem_cons] at hmem
        rcases hmem with h1 | h2 | h3 | h4 | h5
        · exact ne_done_of_prefixed "Processing file: " name (by decide) h1
        · simp at h2
        · simp at h3
        · exact ne_done_of_prefixed "Saved processed file to: "
            (Polish.savePath outP name) (by decide) h4
        · exact ih h5

/-- Claim C5: a failing document aborts the batch in both modes — the batch
trace and outcome do not depend on any documents after the failing one (so
no later document is loaded, sent to the service, or written), the error
itself propagates as the batch outcome, and no DONE summary line is ever
printed by the loop (the driver prints it only after an all-ok run). -/
theorem batch_failfast (svcE svcP : Service) (sd outP : String)
    (docs extra files extraF : List (String × Node)) (e eP : PyErr)
    (hE : (Ensemble.processDocs svcE sd docs).2 = Except.error e)
    (hP : (Polish.processFiles svcP outP files).2 = Except.error eP) :
    Ensemble.processDocs svcE sd (docs ++ extra) = Ensemble.processDocs svcE sd docs ∧
    (Ensemble.processDocs svcE sd (docs ++ extra)).2 = Except.error e ∧
    Polish.processFiles svcP outP (files ++ extraF) = Polish.processFiles svcP outP files ∧
    (Polish.processFiles svcP outP (files ++ extraF)).2 = Except.error eP ∧
    Event.printed "DONE" ∉ (Ensemble.processDocs svcE sd (docs ++ extra)).1 ∧
    Event.printed "DONE" ∉ (Polish.processFiles svcP outP (files ++ extraF)).1 := by
  have h1 := processDocs_append_error svcE sd docs e hE extra
  have h2 := processFiles_append_error svcP outP files eP hP extraF
  refine ⟨h1, ?_, h2, ?_, processDocs_no_done svcE sd _, processFiles_no_done svcP outP _⟩
  · rw [h1]
    exact hE
  · rw [h2]
    exact hP

/-- Concrete run of `batch_failfast` with a failing service and one further
document or file queued after the failure. -/
theorem batch_failfast_witness :
    (Ensemble.processDocs failSvc "sav" docsW).2 = Except.error PyErr.serviceError ∧
    (Polish.processFiles failSvc "put" filesW).2 = Except.error PyErr.serviceError ∧
    (Ensemble.processDocs failSvc "sav" (docsW ++ extraW) =
        Ensemble.processDocs failSvc "sav" docsW ∧
      (Ensemble.processDocs failSvc "sav" (docsW ++ extraW)).2 =
        Except.error PyErr.serviceError ∧
      Polish.processFiles failSvc "put" (filesW ++ extraFW) =
        Polish.processFiles failSvc "put" filesW ∧
      (Polish.processFiles failSvc "put" (filesW ++ extraFW)).2 =
        Except.error PyErr.serviceError ∧
      Event.printed "DONE" ∉ (Ensemble.processDocs failSvc "sav" (docsW ++ extraW)).1 ∧
      Event.printed "DONE" ∉ (Polish.processFiles failSvc "put" (filesW ++ extraFW)).1) :=
  ⟨rfl, rfl,
   batch_failfast failSvc failSvc "sav" "put" docsW extraW filesW extraFW
     PyErr.serviceError PyErr.serviceError rfl rfl⟩
